import Mathlib

/-!
Verification development for the STM32 UDP discovery script
(Tools/discover_stm32.py). The script listens on UDP port 5678, sends a
broadcast probe, and records each JSON response payload in a module-global
list named discovered_devices, deduplicating an incoming packet by comparing
its actual source address against the stored records own "ip" fields.
-/

namespace Stm32Discover

/-- A Python value as returned by json.loads. -/
inductive PyVal where
  | str : String → PyVal
  | int : Int → PyVal
  | bool : Bool → PyVal
  | null : PyVal
  | list : List PyVal → PyVal
  | dict : List (String × PyVal) → PyVal

/-- Exceptions relevant to the script: AttributeError from calling .get on a
non-dict, and OSError from socket operations. -/
inductive PyErr where
  | attributeError
  | osError
deriving DecidableEq

/-- Model of the Python expression d.get("ip"): on a dict it returns the value
of the key (None, modelled as none, when absent); on any other value it raises
AttributeError. -/
def pyGet (v : PyVal) (k : String) : Except PyErr (Option PyVal) :=
  match v with
  | .dict kvs => .ok (kvs.lookup k)
  | _ => .error .attributeError

/-- Python equality between one element of the dedup list (the result of
d.get("ip"), possibly None) and the packet source address string, as used by
the membership test addr[0] not in [...]. A string equals only an equal
string; it never equals None, an int, a bool, a list or a dict. -/
def optValEqStr (o : Option PyVal) (s : String) : Bool :=
  match o with
  | some (.str t) => decide (t = s)
  | _ => false

/-- Outcome of evaluating data.decode("utf-8") followed by json.loads on one
received datagram: empty data (skipped by the `if data:` guard), bytes that
are not valid UTF-8 (UnicodeDecodeError), text that is not JSON
(json.JSONDecodeError), or a successfully parsed value. The two stdlib calls
are library code, so only their outcome is modelled. -/
inductive Payload where
  | empty
  | undecodable
  | nonJson
  | json : PyVal → Payload

/-- One datagram as returned by sock.recvfrom: the source address string
addr[0] and the payload outcome. -/
structure Datagram where
  src : String
  payload : Payload

/-- The list comprehension [d.get("ip") for d in discovered_devices],
evaluated left to right; it raises as soon as a stored record is not a dict. -/
def ipComprehension : List PyVal → Except PyErr (List (Option PyVal))
  | [] => .ok []
  | d :: ds =>
    match pyGet d "ip", ipComprehension ds with
    | .ok i, .ok l => .ok (i :: l)
    | .error e, _ => .error e
    | .ok _, .error e => .error e

/-- One iteration of the receive loop of listen_for_responses acting on the
registry g (the module-global discovered_devices). Empty data is skipped;
UnicodeDecodeError and JSONDecodeError are caught by the inner try/except and
leave the registry unchanged; an AttributeError raised while evaluating the
dedup comprehension is caught by the generic except clause and also leaves
the registry unchanged; when the comprehension succeeds, the packet is
discarded if its source address equals a stored ip field, and otherwise the
parsed value is appended. The append precedes print_device_info, so a record
appended just before printing raises (non-dict payload) is kept. -/
def processDatagram (g : List PyVal) (dg : Datagram) : List PyVal :=
  match dg.payload with
  | .empty => g
  | .undecodable => g
  | .nonJson => g
  | .json v =>
    match ipComprehension g with
    | .error _ => g
    | .ok ips => if ips.any (fun o => optValEqStr o dg.src) then g else g ++ [v]

/-- The receive loop of listen_for_responses over the datagrams received
during the collection window, in arrival order. -/
def listen_for_responses (dgs : List Datagram) (g : List PyVal) : List PyVal :=
  dgs.foldl processDatagram g

/-- The run of listen_for_responses inside its daemon thread: if socket
creation, setsockopt, settimeout or bind raises, the thread dies before
receiving anything and the exception is printed by the threading machinery,
never reaching the joining main thread; otherwise the receive loop runs to
the deadline. -/
def listenThreadRun (setupRaises : Bool) (dgs : List Datagram) (g : List PyVal) : List PyVal :=
  if setupRaises then g else listen_for_responses dgs g

/-- send_discovery_broadcast: socket creation and setsockopt sit outside any
try block, so a failure there propagates to the caller; the sendto call is
wrapped in try/except, so a send failure only prints a message and the
function still returns normally. -/
def send_discovery_broadcast (socketRaises sendtoRaises : Bool) : Except PyErr Unit :=
  if socketRaises then .error .osError
  else
    let _ := sendtoRaises
    .ok ()

/-- discover_devices: starts the listener thread, calls
send_discovery_broadcast, joins the listener, and leaves the results in the
module-global list, returned here as the value. A setup failure inside the
listener thread never reaches this function; a failure creating the broadcast
socket propagates to the caller of discover_devices. -/
def discover_devices (listenerSetupRaises broadcastSocketRaises sendtoRaises : Bool)
    (dgs : List Datagram) (g : List PyVal) : Except PyErr (List PyVal) := do
  let g2 := listenThreadRun listenerSetupRaises dgs g
  let _ ← send_discovery_broadcast broadcastSocketRaises sendtoRaises
  pure g2

/-- The module-global discovered_devices at interpreter start. -/
def discovered_devices_init : List PyVal := []

/-- Two calls to discover_devices in sequence in one interpreter process: the
module-global list is never reset, so the second call continues from the
registry the first call left behind. -/
def runTwoSessions (dgs1 dgs2 : List Datagram) : Except PyErr (List PyVal) := do
  let g1 ← discover_devices false false false dgs1 discovered_devices_init
  discover_devices false false false dgs2 g1

/-- A record is a JSON object. -/
def isDict : PyVal → Bool
  | .dict _ => true
  | _ => false

/-- Events of one discovery session relevant to the bind/probe ordering. -/
inductive Event where
  | startThread
  | bind
  | sendProbe
  | recvWindow
  | joinDone
deriving DecidableEq

/-- Program order of the main thread in discover_devices: start the listener
thread, send the broadcast probe, join the listener. -/
def mainOrder : List Event := [.startThread, .sendProbe, .joinDone]

/-- Program order of the listener thread: bind the socket, then run the
receive window to its deadline. -/
def listenerOrder : List Event := [.bind, .recvWindow]

/-- The trace is an interleaving of the two given program orders. -/
def isInterleaving : List Event → List Event → List Event → Bool
  | [], [], [] => true
  | _, _, [] => false
  | xs, ys, z :: zs =>
    (match xs with
     | x :: xs2 => decide (x = z) && isInterleaving xs2 ys zs
     | [] => false)
    || (match ys with
        | y :: ys2 => decide (y = z) && isInterleaving xs ys2 zs
        | [] => false)

/-- Index of the first occurrence of an event in a trace. -/
def idxOf : List Event → Event → Nat
  | [], _ => 0
  | x :: xs, e => if x = e then 0 else idxOf xs e + 1

/-- The schedules the code admits: any interleaving of the two program orders
in which the listener thread runs only after Thread.start and join returns
only after the listener loop has finished. The code contains no further
synchronization between the two threads. -/
def validSchedule (t : List Event) : Bool :=
  isInterleaving mainOrder listenerOrder t
  && decide (idxOf t .startThread < idxOf t .bind)
  && decide (idxOf t .recvWindow < idxOf t .joinDone)

/-- A schedule in which the probe is sent before the listener binds. -/
def raceSchedule : List Event :=
  [.startThread, .sendProbe, .bind, .recvWindow, .joinDone]

/-- A schedule in which the listener binds before the probe is sent. -/
def politeSchedule : List Event :=
  [.startThread, .bind, .sendProbe, .recvWindow, .joinDone]

/-- Response payload claiming ip 10.0.0.2. -/
def devA : PyVal := .dict [("hostname", .str "dev-A"), ("ip", .str "10.0.0.2")]

/-- Response payload claiming ip 10.0.0.3. -/
def devB : PyVal := .dict [("hostname", .str "dev-B"), ("ip", .str "10.0.0.3")]

/-- Response payload claiming ip 10.0.0.2, sent truthfully from 10.0.0.2. -/
def devHonest : PyVal := .dict [("hostname", .str "dev-C"), ("ip", .str "10.0.0.2")]

/-- Response payload claiming ip 10.0.0.6. -/
def devC : PyVal := .dict [("hostname", .str "dev-C"), ("ip", .str "10.0.0.6")]

/-- Response payload claiming ip 10.0.0.6, sent truthfully from 10.0.0.6. -/
def devD : PyVal := .dict [("ip", .str "10.0.0.6")]

theorem processDatagram_json_ok (g : List PyVal) (src : String) (v : PyVal)
    (l : List (Option PyVal)) (hl : ipComprehension g = .ok l) :
    processDatagram g ⟨src, .json v⟩ =
      if l.any (fun o => optValEqStr o src) then g else g ++ [v] := by
  simp [processDatagram, hl]

theorem ipComprehension_error_of_nonDict (g : List PyVal) (v : PyVal)
    (hv : isDict v = false) (hm : v ∈ g) :
    ∃ e, ipComprehension g = .error e := by
  induction g with
  | nil => cases hm
  | cons d ds ih =>
    rcases List.mem_cons.mp hm with h | h
    · subst h
      have hG : pyGet v "ip" = .error .attributeError := by
        cases v <;> first | rfl | (simp [isDict] at hv)
      exact ⟨.attributeError, by simp [ipComprehension, hG]⟩
    · obtain ⟨e, he⟩ := ih h
      cases hd : pyGet d "ip" with
      | error e2 => exact ⟨e2, by simp [ipComprehension, hd]⟩
      | ok i => exact ⟨e, by simp [ipComprehension, hd, he]⟩

theorem processDatagram_poisoned (g : List PyVal)
    (hg : ∃ v ∈ g, isDict v = false) (dg : Datagram) :
    processDatagram g dg = g := by
  obtain ⟨v, hm, hv⟩ := hg
  obtain ⟨e, he⟩ := ipComprehension_error_of_nonDict g v hv hm
  cases dg with
  | mk src p => cases p <;> simp [processDatagram, he]

theorem listen_poisoned (dgs : List Datagram) (g : List PyVal)
    (hg : ∃ v ∈ g, isDict v = false) :
    listen_for_responses dgs g = g := by
  induction dgs with
  | nil => rfl
  | cons dg rest ih =>
    show (dg :: rest).foldl processDatagram g = g
    rw [List.foldl_cons, processDatagram_poisoned g hg dg]
    exact ih

/-- Claim C1: the code evaluated at the failing input. A response arrives from
source 10.0.0.1 claiming ip 10.0.0.2, then a second response arrives from the
same true source 10.0.0.1: the claim requires the second to be deduplicated
away by true source, but the code keeps both, because the stored record is
keyed for dedup by its claimed ip field and no origin address is stored at
all. Dually, a later truthful response from source 10.0.0.2 is discarded
because the first record claimed that address. -/
theorem claimC1_eval :
    listen_for_responses
      [⟨"10.0.0.1", .json devA⟩, ⟨"10.0.0.1", .json devB⟩] [] = [devA, devB]
    ∧ listen_for_responses
      [⟨"10.0.0.1", .json devA⟩, ⟨"10.0.0.2", .json devHonest⟩] [] = [devA] :=
  ⟨rfl, rfl⟩

/-- Claim C2: the code evaluated at the failing input. Two responses from the
single source 192.168.1.7, claiming ips 10.0.0.2 and 10.0.0.3: the claim
requires exactly one retained record, but the code retains both, so two
records of one result share the same origin address. -/
theorem claimC2_eval :
    listen_for_responses
      [⟨"192.168.1.7", .json devA⟩, ⟨"192.168.1.7", .json devB⟩] [] = [devA, devB] :=
  rfl

/-- Claim C3: the code evaluated at the failing input. Responses from the two
distinct sources 10.0.0.5 and 10.0.0.6, both decoding successfully; the first
claims ip 10.0.0.6, so the genuine response from 10.0.0.6 is discarded and
the result has one record where the claim requires exactly two. -/
theorem claimC3_eval :
    (listen_for_responses
      [⟨"10.0.0.5", .json devC⟩, ⟨"10.0.0.6", .json devD⟩] []).length = 1 :=
  rfl

/-- Claim C4 counterexample: the schedule startThread, sendProbe, bind,
recvWindow, joinDone is admitted by the code, and in it the probe send
precedes the bind, refuting the claim that the send never precedes the bind. -/
theorem claimC4_counterexample :
    validSchedule raceSchedule = true
    ∧ idxOf raceSchedule .sendProbe < idxOf raceSchedule .bind := by
  decide

/-- Claim C4 amended: the code starts the listener thread before sending the
probe but never confirms the bind, so among the admitted schedules there is
one where the bind precedes the probe send and one where the probe send
precedes the bind; the bind-before-send ordering is not guaranteed. -/
theorem claimC4_amended :
    (∃ t, validSchedule t = true ∧ idxOf t .bind < idxOf t .sendProbe)
    ∧ (∃ t, validSchedule t = true ∧ idxOf t .sendProbe < idxOf t .bind) :=
  ⟨⟨politeSchedule, by decide⟩, ⟨raceSchedule, by decide⟩⟩

/-- Claim C5: a payload that parses as JSON but is not an object is appended
to the registry as a record (the append happens before print_device_info
raises AttributeError), and from then on every datagram of the session leaves
the registry unchanged, because the dedup comprehension raises
AttributeError on the stored non-dict and the generic except clause discards
the datagram; no further device is ever recorded. -/
theorem claimC5_nonObject (g : List PyVal) (src : String) (v : PyVal)
    (hv : isDict v = false) (l : List (Option PyVal))
    (hl : ipComprehension g = .ok l)
    (hfresh : l.any (fun o => optValEqStr o src) = false)
    (rest : List Datagram) :
    processDatagram g ⟨src, .json v⟩ = g ++ [v]
    ∧ listen_for_responses rest (g ++ [v]) = g ++ [v] := by
  constructor
  · rw [processDatagram_json_ok g src v l hl]
    simp [hfresh]
  · exact listen_poisoned rest (g ++ [v]) ⟨v, by simp, hv⟩

/-- Witness for claim C5: the first datagram carries the JSON text 42; it is
appended, and a later well-formed object response from a new address is then
discarded. -/
theorem claimC5_nonObject_witness :
    processDatagram [] ⟨"10.0.0.8", .json (.int 42)⟩ = [] ++ [.int 42]
    ∧ listen_for_responses [⟨"10.0.0.9", .json devHonest⟩] ([] ++ [.int 42])
        = [] ++ [.int 42] :=
  claimC5_nonObject [] "10.0.0.8" (.int 42) rfl [] rfl rfl
    [⟨"10.0.0.9", .json devHonest⟩]

/-- Claim C6 counterexample: the listener socket bind raises, yet
discover_devices returns a successful empty result to its caller; the setup
failure is not surfaced as an error, contradicting the claim that a
transport-setup failure is fatal and surfaced. -/
theorem claimC6_counterexample :
    discover_devices true false false [⟨"10.0.0.2", .json devHonest⟩]
      discovered_devices_init = .ok [] :=
  rfl

/-- Claim C6 amended: a setup failure inside the listener thread kills only
that thread; the session still completes and returns an empty successful
result, with every received response lost. Only a failure creating or
configuring the broadcast socket in the main thread surfaces to the caller as
an error. -/
theorem claimC6_amended (s : Bool) (dgs : List Datagram) :
    discover_devices true false s dgs discovered_devices_init = .ok []
    ∧ ∀ (l s2 : Bool) (g : List PyVal),
        discover_devices l true s2 dgs g = .error .osError :=
  ⟨rfl, fun _ _ _ => rfl⟩

/-- Claim C7: a malformed payload, whether undecodable bytes or text that is
not JSON, produces zero records, and the remainder of the session proceeds
exactly as if the malformed datagram had never arrived, so later valid
responses are still captured. -/
theorem claimC7_malformed (g : List PyVal) (src : String) (p : Payload)
    (hp : p = .undecodable ∨ p = .nonJson) (rest : List Datagram) :
    processDatagram g ⟨src, p⟩ = g
    ∧ listen_for_responses (⟨src, p⟩ :: rest) g = listen_for_responses rest g := by
  have h1 : processDatagram g ⟨src, p⟩ = g := by
    rcases hp with h | h <;> subst h <;> rfl
  refine ⟨h1, ?_⟩
  show (⟨src, p⟩ :: rest).foldl processDatagram g = rest.foldl processDatagram g
  rw [List.foldl_cons, h1]

/-- Witness for claim C7: an undecodable datagram leaves the registry
unchanged and the following valid response is processed identically. -/
theorem claimC7_malformed_witness :
    processDatagram [] ⟨"10.0.0.4", .undecodable⟩ = []
    ∧ listen_for_responses
        [⟨"10.0.0.4", .undecodable⟩, ⟨"10.0.0.2", .json devHonest⟩] []
      = listen_for_responses [⟨"10.0.0.2", .json devHonest⟩] [] :=
  claimC7_malformed [] "10.0.0.4" .undecodable (Or.inl rfl)
    [⟨"10.0.0.2", .json devHonest⟩]

/-- Claim C8: after transport setup succeeded, a sendto failure is swallowed
inside send_discovery_broadcast, which still returns normally, and the
discovery result is the full collection over the window, identical whatever
the send outcome. -/
theorem claimC8_sendNonFatal (sendtoRaises : Bool) (dgs : List Datagram)
    (g : List PyVal) :
    send_discovery_broadcast false sendtoRaises = .ok ()
    ∧ discover_devices false false sendtoRaises dgs g
        = .ok (listen_for_responses dgs g) :=
  ⟨rfl, rfl⟩

/-- Claim C9 counterexample: two sessions run in sequence in one process; the
second session returns the record of the first session as well, because the
module-global registry is never reset between calls. -/
theorem claimC9_counterexample :
    runTwoSessions [⟨"10.0.0.1", .json devA⟩] [⟨"10.0.0.9", .json devB⟩]
      = .ok [devA, devB] :=
  rfl

/-- Claim C9 amended: the registry is a module-global list that persists for
the life of the process; a second session continues from the registry the
first left behind, and the two sessions together behave as one session over
the concatenated datagram sequence. -/
theorem claimC9_amended (dgs1 dgs2 : List Datagram) :
    runTwoSessions dgs1 dgs2
      = .ok (listen_for_responses (dgs1 ++ dgs2) discovered_devices_init) := by
  simp [runTwoSessions, discover_devices, listenThreadRun,
    send_discovery_broadcast, listen_for_responses, List.foldl_append]
  rfl

/-- Claim C10: an accepted record is the decoded payload value itself, so the
stored key/value set reproduces the payload exactly, unrecognized keys
included; nothing is lost or altered. -/
theorem claimC10_roundtrip (g : List PyVal) (src : String)
    (kvs : List (String × PyVal)) (l : List (Option PyVal))
    (hl : ipComprehension g = .ok l)
    (hfresh : l.any (fun o => optValEqStr o src) = false) :
    listen_for_responses [⟨src, .json (.dict kvs)⟩] g = g ++ [.dict kvs] := by
  show processDatagram g ⟨src, .json (.dict kvs)⟩ = g ++ [.dict kvs]
  rw [processDatagram_json_ok g src (.dict kvs) l hl]
  simp [hfresh]

/-- Witness for claim C10: a payload with an unrecognized key is stored with
that key intact. -/
theorem claimC10_roundtrip_witness :
    listen_for_responses
      [⟨"10.0.0.7", .json (.dict [("hostname", .str "n"), ("extra", .int 5)])⟩] []
      = [] ++ [.dict [("hostname", .str "n"), ("extra", .int 5)]] :=
  claimC10_roundtrip [] "10.0.0.7" [("hostname", .str "n"), ("extra", .int 5)]
    [] rfl rfl

end Stm32Discover
